import Mathlib

/-!
Shallow embedding of the twurple slice consisting of
`EventSubChannelRedemptionAddSubscription` (eventsub package) and
`HelixSubscriptionApi` (twitch package), together with proofs about the
claims of the specification.

Conventions of the embedding:
* TypeScript optional fields (`x?: T`, possibly `undefined`) become `Option T`.
* JavaScript truthiness on an optional string (`if (this._rewardId)`) is made
  explicit: `undefined` and the empty string are falsy.
* Asynchronous Gateway calls are embedded by passing the Gateway's outcome
  (a successful response, or an `Except` carrying a status-coded error) as an
  explicit argument to the function under study; the function's body then
  mirrors what the source does with that outcome.
* Object identities that the code only stores and passes along (the API
  client, the handler closure) are opaque values carrying a tag, so that
  independence from them can be stated.
-/

namespace Twurple

/-- Opaque API client handle (`ApiClient`); entities keep a back-reference
to it. The tag only serves to distinguish distinct clients. -/
structure ApiClient where
  tag : Nat
deriving DecidableEq, Repr

/-- `EventSubBase`: the eventsub client; the slice only uses its
`_apiClient` field. -/
structure EventSubBase where
  _apiClient : ApiClient
deriving DecidableEq, Repr

/-- Raw payload of a channel redemption add event
(`EventSubChannelRedemptionAddEventData`), opaque to this slice. -/
structure EventSubChannelRedemptionAddEventData where
  raw : String
deriving DecidableEq, Repr

/-- Typed event (`EventSubChannelRedemptionAddEvent`): constructed from the
raw data and the api client, mirroring
`new EventSubChannelRedemptionAddEvent(data, this._client._apiClient)`. -/
structure EventSubChannelRedemptionAddEvent where
  data : EventSubChannelRedemptionAddEventData
  client : ApiClient
deriving DecidableEq, Repr

/-- Transport options returned by `_getTransportOptions()`, opaque here. -/
structure TransportOptions where
  raw : String
deriving DecidableEq, Repr

/-- The two Gateway registration call shapes `_subscribe` can issue:
`subscribeToChannelRedemptionAddEventsForReward(userId, rewardId, transport)`
and `subscribeToChannelRedemptionAddEvents(userId, transport)`. -/
inductive EventSubRegistrationCall where
  | forReward (userId : String) (rewardId : String) (transport : TransportOptions)
  | general (userId : String) (transport : TransportOptions)
deriving DecidableEq, Repr

/-- State of an `EventSubChannelRedemptionAddSubscription` instance as set up
by its constructor: the handler (opaque tag — the slice never inspects it),
the client, and the private fields `_userId : string` and
`_rewardId?: string`. -/
structure EventSubChannelRedemptionAddSubscription where
  handler : Nat
  _client : EventSubBase
  _userId : String
  _rewardId : Option String
deriving DecidableEq, Repr

/-- JavaScript truthiness of a value of TypeScript type `string | undefined`:
`undefined` and the empty string are falsy, every other string is truthy. -/
def jsTruthyStringOpt : Option String → Bool
  | none => false
  | some s => s ≠ ""

namespace EventSubChannelRedemptionAddSubscription

/-- The `id` getter: returns the template literal
`channel.channel_points_custom_reward_redemption.add.${this._userId}` —
note that `_rewardId` does not occur in it. -/
def id (s : EventSubChannelRedemptionAddSubscription) : String :=
  "channel.channel_points_custom_reward_redemption.add." ++ s._userId

/-- `transformData`: wraps the raw payload into a typed event carrying the
api client, `new EventSubChannelRedemptionAddEvent(data, this._client._apiClient)`. -/
def transformData (s : EventSubChannelRedemptionAddSubscription)
    (data : EventSubChannelRedemptionAddEventData) : EventSubChannelRedemptionAddEvent :=
  ⟨data, s._client._apiClient⟩

/-- `_subscribe`: `if (this._rewardId)` (JS truthiness) chooses between the
reward-specific and the general Gateway registration call. The transport
options obtained from `_getTransportOptions()` are passed in. -/
def _subscribe (s : EventSubChannelRedemptionAddSubscription)
    (transport : TransportOptions) : EventSubRegistrationCall :=
  if jsTruthyStringOpt s._rewardId then
    .forReward s._userId (s._rewardId.getD "") transport
  else
    .general s._userId transport

end EventSubChannelRedemptionAddSubscription

/-! ## HelixSubscriptionApi -/

/-- `UserIdResolvable`: either a plain user-id string or an object exposing
an id; `extractUserId` projects the id out of it. -/
inductive UserIdResolvable where
  | str (s : String)
  | user (id : String)
deriving DecidableEq, Repr

/-- `extractUserId` from twitch-common: the user id carried by the resolvable. -/
def extractUserId : UserIdResolvable → String
  | .str s => s
  | .user i => i

/-- `TwitchApiCallType` (only the `Helix` member is used in this slice). -/
inductive TwitchApiCallType where
  | Helix
deriving DecidableEq, Repr

/-- A query-string value: a single string or a list of strings
(`user_id: users.map(extractUserId)`). -/
inductive QueryValue where
  | str (s : String)
  | strs (l : List String)
deriving DecidableEq, Repr

/-- The options object passed to `this._client.callApi({...})`. -/
structure ApiCallOptions where
  url : String
  scope : Option String
  type : Option TwitchApiCallType
  query : List (String × QueryValue)
deriving DecidableEq, Repr

/-- The config object passed to the `HelixPaginatedRequest(WithTotal)`
constructors (no `type` field; the paginated-request machinery adds it). -/
structure PaginatedRequestConfig where
  url : String
  scope : Option String
  query : List (String × QueryValue)
deriving DecidableEq, Repr

/-- Raw JSON item of one Helix subscription (`HelixSubscriptionData`),
opaque to this slice. -/
structure HelixSubscriptionData where
  raw : String
deriving DecidableEq, Repr

/-- Decoded domain entity `HelixSubscription`: the raw data plus the
back-reference to the api client, as built by
`new HelixSubscription(data, this._client)`. -/
structure HelixSubscription where
  data : HelixSubscriptionData
  client : ApiClient
deriving DecidableEq, Repr

/-- Raw JSON item of one subscription event (`HelixSubscriptionEventData`). -/
structure HelixSubscriptionEventData where
  raw : String
deriving DecidableEq, Repr

/-- Decoded domain entity `HelixSubscriptionEvent`. -/
structure HelixSubscriptionEvent where
  data : HelixSubscriptionEventData
  client : ApiClient
deriving DecidableEq, Repr

/-- Raw JSON body of one user-subscription check
(`HelixUserSubscriptionData`). -/
structure HelixUserSubscriptionData where
  raw : String
deriving DecidableEq, Repr

/-- `HelixUserSubscription`: built by
`new HelixUserSubscription(result.data[0], this._client)`. The data slot is
an `Option` because the source indexes `result.data[0]` unguarded, so the
constructor may receive `undefined` (modelled as `none`). -/
structure HelixUserSubscription where
  data : Option HelixUserSubscriptionData
  client : ApiClient
deriving DecidableEq, Repr

/-- A plain (non-paginated) Helix response body: `{ data: T[] }`. -/
structure HelixResponse (T : Type) where
  data : List T
deriving DecidableEq, Repr

/-- A paginated Helix response body: `{ data: T[], pagination?: { cursor? } }`,
with the cursor flattened to an `Option`. -/
structure HelixPaginatedResponse (T : Type) where
  data : List T
  cursor : Option String
deriving DecidableEq, Repr

/-- `HelixPaginatedResult`: typed entity list plus continuation cursor. -/
structure HelixPaginatedResult (T : Type) where
  data : List T
  cursor : Option String
deriving DecidableEq, Repr

/-- Errors a Gateway call can fail with: an `HttpStatusCodeError` carrying a
status code, or any other error. -/
inductive TwitchError where
  | httpStatus (statusCode : Nat) (message : String)
  | other (message : String)
deriving DecidableEq, Repr

/-- Whether an error is an `HttpStatusCodeError` with `statusCode === 404`
(the test in `checkUserSubscription`'s catch clause). -/
def TwitchError.isNotFound : TwitchError → Bool
  | .httpStatus code _ => code == 404
  | .other _ => false

namespace HelixSubscriptionApi

/-- The call options built by `getSubscriptions` (eager listing). -/
def getSubscriptionsRequest (broadcaster : UserIdResolvable) : ApiCallOptions :=
  { url := "subscriptions"
    scope := some "channel:read:subscriptions"
    type := some .Helix
    query := [("broadcaster_id", .str (extractUserId broadcaster))] }

/-- `getSubscriptionsPaginated`: the constructor config of the returned
`HelixPaginatedRequestWithTotal`, together with the per-item mapper
`(data) => new HelixSubscription(data, this._client)`. -/
def getSubscriptionsPaginated (client : ApiClient) (broadcaster : UserIdResolvable) :
    PaginatedRequestConfig × (HelixSubscriptionData → HelixSubscription) :=
  ({ url := "subscriptions"
     scope := some "channel:read:subscriptions"
     query := [("broadcaster_id", .str (extractUserId broadcaster))] },
   fun data => ⟨data, client⟩)

/-- The call options built by `getSubscriptionsForUsers`. -/
def getSubscriptionsForUsersRequest (broadcaster : UserIdResolvable)
    (users : List UserIdResolvable) : ApiCallOptions :=
  { url := "subscriptions"
    scope := some "channel:read:subscriptions"
    type := some .Helix
    query := [("broadcaster_id", .str (extractUserId broadcaster)),
              ("user_id", .strs (users.map extractUserId))] }

/-- `getSubscriptionsForUsers`, given the Gateway's successful response:
`result.data.map(data => new HelixSubscription(data, this._client))`. -/
def getSubscriptionsForUsers (client : ApiClient)
    (result : HelixResponse HelixSubscriptionData) : List HelixSubscription :=
  result.data.map fun data => ⟨data, client⟩

/-- `getSubscriptionForUser`, given the Gateway's successful response for the
single-user query: `list.length ? list[0] : null` over the decoded list. -/
def getSubscriptionForUser (client : ApiClient)
    (result : HelixResponse HelixSubscriptionData) : Option HelixSubscription :=
  let list := getSubscriptionsForUsers client result
  if list.length ≠ 0 then list.head? else none

/-- Modelled from the spec: `createPaginatedResult` (the Result Page
Decoder, whose source file `HelixPaginatedResult.ts` is not in the shown
slice) turns one raw page response into a typed list of domain entities —
one per raw item, via the given per-item constructor — plus the opaque
continuation cursor. -/
def createPaginatedResult {D T : Type} (result : HelixPaginatedResponse D)
    (mk : D → T) : HelixPaginatedResult T :=
  ⟨result.data.map mk, result.cursor⟩

/-- `_getSubscriptionEvents`, given the Gateway's successful response:
decodes the page with `createPaginatedResult(result, HelixSubscriptionEvent,
this._client)`. -/
def _getSubscriptionEvents (client : ApiClient)
    (result : HelixPaginatedResponse HelixSubscriptionEventData) :
    HelixPaginatedResult HelixSubscriptionEvent :=
  createPaginatedResult result fun data => ⟨data, client⟩

/-- `getSubscriptionEventById`, given the Gateway's successful response:
`events.data[0] ?? null`. -/
def getSubscriptionEventById (client : ApiClient)
    (result : HelixPaginatedResponse HelixSubscriptionEventData) :
    Option HelixSubscriptionEvent :=
  (_getSubscriptionEvents client result).data.head?

/-- `checkUserSubscription`, given the outcome of the Gateway call inside the
`try` block. On success it unconditionally builds a `HelixUserSubscription`
from `result.data[0]` (possibly `undefined`, i.e. `none`). In the catch
clause, an `HttpStatusCodeError` with status 404 becomes `null`; every other
error is rethrown unchanged. -/
def checkUserSubscription (client : ApiClient)
    (callResult : Except TwitchError (HelixResponse HelixUserSubscriptionData)) :
    Except TwitchError (Option HelixUserSubscription) :=
  match callResult with
  | .ok result => .ok (some ⟨result.data.head?, client⟩)
  | .error e =>
    match e with
    | .httpStatus code msg =>
      if code = 404 then .ok none else .error (.httpStatus code msg)
    | .other msg => .error (.other msg)

end HelixSubscriptionApi

/-! ## Paginated Collection Traversal Engine (fetchAll) -/

/-- One raw page as the Gateway returns it during a paginated traversal:
items, continuation cursor (absent on the last page) and an optional
server-reported total. -/
structure Page (α : Type) where
  items : List α
  cursor : Option String
  total : Option Nat
deriving DecidableEq, Repr

/-- Exhaustion test of the Traversal Engine: a page with an absent cursor or
an empty item list terminates the traversal. -/
def pageExhausted {α : Type} (p : Page α) : Bool :=
  p.cursor.isNone || p.items.isEmpty

/-- Modelled from the spec: `fetchAll` of the Paginated Collection Traversal
Engine (`HelixPaginatedRequest.getAll`, whose source file is not in the
shown slice). The Gateway is modelled as the finite sequence of pages it
returns, consumed one per call with the advancing cursor; the traversal
stops with the first page whose cursor is absent or whose item list is
empty. Returns the items concatenated in page-arrival order, the last-seen
total, and the number of Gateway calls made. -/
def fetchAll {α : Type} : List (Page α) → List α × Option Nat × Nat
  | [] => ([], none, 0)
  | p :: rest =>
    if pageExhausted p then (p.items, p.total, 1)
    else
      let r := fetchAll rest
      (p.items ++ r.1,
       match r.2.1 with
       | some t => some t
       | none => p.total,
       r.2.2 + 1)

/-- The number of Gateway calls a traversal makes against a Gateway that
returns these pages in order: one per page, up to and including the first
exhausted page. -/
def callsUntilExhausted {α : Type} : List (Page α) → Nat
  | [] => 0
  | p :: rest => if pageExhausted p then 1 else callsUntilExhausted rest + 1

/-! ## Theorems about the claims -/

/-- C1 (code bug evidence): at the spec's concrete scenario — userId
"61369223", rewardId absent vs rewardId "r1" — the `id` getter yields the
same identity string for both instances, and that string does not contain
"r1": the optional qualifier is ignored by identity derivation, so the two
descriptors are NOT different identities as the spec requires. -/
theorem id_collides_on_rewardId :
    EventSubChannelRedemptionAddSubscription.id ⟨0, ⟨⟨0⟩⟩, "61369223", some "r1"⟩
      = EventSubChannelRedemptionAddSubscription.id ⟨0, ⟨⟨0⟩⟩, "61369223", none⟩
    ∧ EventSubChannelRedemptionAddSubscription.id ⟨0, ⟨⟨0⟩⟩, "61369223", some "r1"⟩
      = "channel.channel_points_custom_reward_redemption.add.61369223" := by
  exact ⟨rfl, rfl⟩

/-- C5: identity derivation is a deterministic, side-effect-free function of
the defining parameters: two instances with the same `_userId` and the same
`_rewardId` (indeed, with the same `_userId` alone) yield byte-identical
identity strings, regardless of handler or client. -/
theorem id_deterministic (s₁ s₂ : EventSubChannelRedemptionAddSubscription)
    (hu : s₁._userId = s₂._userId) (_hr : s₁._rewardId = s₂._rewardId) :
    s₁.id = s₂.id := by
  simp [EventSubChannelRedemptionAddSubscription.id, hu]

/-- Witness for C5: two instances with different handlers and clients but the
same defining parameters have equal identities. -/
theorem id_deterministic_witness :
    ("61369223" : String) = "61369223" ∧ (some "r1" : Option String) = some "r1" ∧
    EventSubChannelRedemptionAddSubscription.id ⟨0, ⟨⟨0⟩⟩, "61369223", some "r1"⟩
      = EventSubChannelRedemptionAddSubscription.id ⟨1, ⟨⟨7⟩⟩, "61369223", some "r1"⟩ :=
  ⟨rfl, rfl, id_deterministic ⟨0, ⟨⟨0⟩⟩, "61369223", some "r1"⟩ ⟨1, ⟨⟨7⟩⟩, "61369223", some "r1"⟩ rfl rfl⟩

/-- C4 (counterexample): an instance constructed with the optional rewardId
qualifier present but equal to the empty string. The claim says a present
rewardId makes `_subscribe` issue the reward-specific call; the code's
truthiness test sends this instance down the general call instead. -/
theorem subscribeCall_present_empty_rewardId :
    (⟨0, ⟨⟨0⟩⟩, "61369223", some ""⟩ :
        EventSubChannelRedemptionAddSubscription)._rewardId = some ""
    ∧ EventSubChannelRedemptionAddSubscription._subscribe
        ⟨0, ⟨⟨0⟩⟩, "61369223", some ""⟩ ⟨"t"⟩
      = .general "61369223" ⟨"t"⟩ := by
  exact ⟨rfl, rfl⟩

/-- C4 (amended): `_subscribe` is a pure function of the instance's defining
parameters, issuing exactly one of two call shapes: when the rewardId is
present AND non-empty it issues the reward-specific call with
(userId, rewardId, transport); when it is absent OR the empty string it
issues the general call with (userId, transport). -/
theorem subscribeCall_shape (s : EventSubChannelRedemptionAddSubscription)
    (t : TransportOptions) :
    (∀ r : String, s._rewardId = some r → r ≠ "" →
        s._subscribe t = .forReward s._userId r t)
    ∧ ((s._rewardId = none ∨ s._rewardId = some "") →
        s._subscribe t = .general s._userId t) := by
  constructor
  · intro r hr hne
    simp [EventSubChannelRedemptionAddSubscription._subscribe, jsTruthyStringOpt, hr, hne]
  · rintro (h | h) <;>
      simp [EventSubChannelRedemptionAddSubscription._subscribe, jsTruthyStringOpt, h]

/-- Witness for C4 (amended): both branches exercised at concrete instances. -/
theorem subscribeCall_shape_witness :
    EventSubChannelRedemptionAddSubscription._subscribe
        ⟨0, ⟨⟨0⟩⟩, "61369223", some "r1"⟩ ⟨"t"⟩
      = .forReward "61369223" "r1" ⟨"t"⟩
    ∧ EventSubChannelRedemptionAddSubscription._subscribe
        ⟨0, ⟨⟨0⟩⟩, "61369223", none⟩ ⟨"t"⟩
      = .general "61369223" ⟨"t"⟩ :=
  ⟨(subscribeCall_shape ⟨0, ⟨⟨0⟩⟩, "61369223", some "r1"⟩ ⟨"t"⟩).1 "r1" rfl (by decide),
   (subscribeCall_shape ⟨0, ⟨⟨0⟩⟩, "61369223", none⟩ ⟨"t"⟩).2 (Or.inl rfl)⟩

/-- C10: with `_rewardId` equal to the empty string, `_subscribe` behaves
exactly as if the rewardId were absent: the general registration call is
issued with (userId, transport), identical to the call issued by the
instance with the rewardId absent, and the empty rewardId is never sent. -/
theorem subscribeCall_empty_as_absent (s : EventSubChannelRedemptionAddSubscription)
    (t : TransportOptions) (h : s._rewardId = some "") :
    s._subscribe t = .general s._userId t
    ∧ s._subscribe t
      = EventSubChannelRedemptionAddSubscription._subscribe
          ⟨s.handler, s._client, s._userId, none⟩ t := by
  refine ⟨?_, ?_⟩ <;>
    simp [EventSubChannelRedemptionAddSubscription._subscribe, jsTruthyStringOpt, h]

/-- Witness for C10 at a concrete instance with an empty-string rewardId. -/
theorem subscribeCall_empty_as_absent_witness :
    (⟨3, ⟨⟨1⟩⟩, "61369223", some ""⟩ :
        EventSubChannelRedemptionAddSubscription)._rewardId = some ""
    ∧ EventSubChannelRedemptionAddSubscription._subscribe
        ⟨3, ⟨⟨1⟩⟩, "61369223", some ""⟩ ⟨"t"⟩
      = .general "61369223" ⟨"t"⟩ :=
  ⟨rfl, (subscribeCall_empty_as_absent ⟨3, ⟨⟨1⟩⟩, "61369223", some ""⟩ ⟨"t"⟩ rfl).1⟩

/-- C2: the error path of `checkUserSubscription`: an `HttpStatusCodeError`
with status 404 is translated into a successful `null` result; every other
error — a status-coded error with a different code, or a non-status
error — propagates unchanged. -/
theorem checkUserSubscription_error_handling (client : ApiClient) (e : TwitchError) :
    HelixSubscriptionApi.checkUserSubscription client (.error e)
      = if e.isNotFound then .ok none else .error e := by
  cases e with
  | httpStatus code msg =>
    by_cases h : code = 404 <;>
      simp [HelixSubscriptionApi.checkUserSubscription, TwitchError.isNotFound, h]
  | other msg =>
    simp [HelixSubscriptionApi.checkUserSubscription, TwitchError.isNotFound]

/-- C9: the success path of `checkUserSubscription` with an empty data list:
the function does NOT return `null`; it returns a `HelixUserSubscription`
built from the undefined (`none`) first element — the absent-result
translation happens only on the 404 error path. -/
theorem checkUserSubscription_unguarded_empty (client : ApiClient)
    (result : HelixResponse HelixUserSubscriptionData) (h : result.data = []) :
    HelixSubscriptionApi.checkUserSubscription client (.ok result)
      = .ok (some ⟨none, client⟩)
    ∧ HelixSubscriptionApi.checkUserSubscription client (.ok result) ≠ .ok none := by
  cases result with
  | mk data =>
    simp only at h
    subst h
    exact ⟨rfl, by simp [HelixSubscriptionApi.checkUserSubscription]⟩

/-- Witness for C9: a concrete empty successful response. -/
theorem checkUserSubscription_unguarded_empty_witness :
    (⟨[]⟩ : HelixResponse HelixUserSubscriptionData).data = []
    ∧ HelixSubscriptionApi.checkUserSubscription ⟨0⟩ (.ok ⟨[]⟩)
      = .ok (some ⟨none, ⟨0⟩⟩) :=
  ⟨rfl, (checkUserSubscription_unguarded_empty ⟨0⟩ ⟨[]⟩ rfl).1⟩

/-- C3: the single-entity lookups return `null` exactly when the successful
response's data list is empty, and otherwise the entity decoded from the
first item: `getSubscriptionForUser` via `list.length ? list[0] : null`,
`getSubscriptionEventById` via `events.data[0] ?? null`. -/
theorem singleEntityLookup_first_or_none (client : ApiClient)
    (rs : HelixResponse HelixSubscriptionData)
    (re : HelixPaginatedResponse HelixSubscriptionEventData) :
    (HelixSubscriptionApi.getSubscriptionForUser client rs
        = rs.data.head?.map fun d => (⟨d, client⟩ : HelixSubscription))
    ∧ (HelixSubscriptionApi.getSubscriptionForUser client rs = none ↔ rs.data = [])
    ∧ (HelixSubscriptionApi.getSubscriptionEventById client re
        = re.data.head?.map fun d => (⟨d, client⟩ : HelixSubscriptionEvent))
    ∧ (HelixSubscriptionApi.getSubscriptionEventById client re = none ↔ re.data = []) := by
  refine ⟨?_, ?_, ?_, ?_⟩
  · cases h : rs.data with
    | nil =>
      simp [HelixSubscriptionApi.getSubscriptionForUser,
        HelixSubscriptionApi.getSubscriptionsForUsers, h]
    | cons d ds =>
      simp [HelixSubscriptionApi.getSubscriptionForUser,
        HelixSubscriptionApi.getSubscriptionsForUsers, h]
  · cases h : rs.data with
    | nil =>
      simp [HelixSubscriptionApi.getSubscriptionForUser,
        HelixSubscriptionApi.getSubscriptionsForUsers, h]
    | cons d ds =>
      simp [HelixSubscriptionApi.getSubscriptionForUser,
        HelixSubscriptionApi.getSubscriptionsForUsers, h]
  · cases h : re.data with
    | nil =>
      simp [HelixSubscriptionApi.getSubscriptionEventById,
        HelixSubscriptionApi._getSubscriptionEvents,
        HelixSubscriptionApi.createPaginatedResult, h]
    | cons d ds =>
      simp [HelixSubscriptionApi.getSubscriptionEventById,
        HelixSubscriptionApi._getSubscriptionEvents,
        HelixSubscriptionApi.createPaginatedResult, h]
  · cases h : re.data with
    | nil =>
      simp [HelixSubscriptionApi.getSubscriptionEventById,
        HelixSubscriptionApi._getSubscriptionEvents,
        HelixSubscriptionApi.createPaginatedResult, h]
    | cons d ds =>
      simp [HelixSubscriptionApi.getSubscriptionEventById,
        HelixSubscriptionApi._getSubscriptionEvents,
        HelixSubscriptionApi.createPaginatedResult, h]

/-- C6: `getSubscriptionsForUsers` decodes a successful response to exactly
one entity per raw item, in the same order, each carrying the client it was
decoded with; likewise every event produced by `transformData` carries the
api client. -/
theorem getSubscriptionsForUsers_decodes_all (client : ApiClient)
    (result : HelixResponse HelixSubscriptionData) :
    (HelixSubscriptionApi.getSubscriptionsForUsers client result).length
        = result.data.length
    ∧ (∀ i : Nat, (HelixSubscriptionApi.getSubscriptionsForUsers client result)[i]?
        = (result.data[i]?).map fun d => (⟨d, client⟩ : HelixSubscription))
    ∧ (∀ (s : EventSubChannelRedemptionAddSubscription)
          (d : EventSubChannelRedemptionAddEventData),
        s.transformData d = ⟨d, s._client._apiClient⟩) := by
  refine ⟨?_, ?_, ?_⟩
  · simp [HelixSubscriptionApi.getSubscriptionsForUsers]
  · intro i
    simp [HelixSubscriptionApi.getSubscriptionsForUsers, List.getElem?_map]
  · intro s d
    rfl

/-- C8: the eager listing `getSubscriptions` and the paginator-creating
`getSubscriptionsPaginated` build identical Gateway request parameters —
same url, same required scope, same query keyed by the extracted
broadcaster id — differing only in traversal strategy. -/
theorem getSubscriptions_modes_agree (client : ApiClient)
    (broadcaster : UserIdResolvable) :
    (HelixSubscriptionApi.getSubscriptionsRequest broadcaster).url
        = (HelixSubscriptionApi.getSubscriptionsPaginated client broadcaster).1.url
    ∧ (HelixSubscriptionApi.getSubscriptionsRequest broadcaster).scope
        = (HelixSubscriptionApi.getSubscriptionsPaginated client broadcaster).1.scope
    ∧ (HelixSubscriptionApi.getSubscriptionsRequest broadcaster).query
        = (HelixSubscriptionApi.getSubscriptionsPaginated client broadcaster).1.query
    ∧ (HelixSubscriptionApi.getSubscriptionsRequest broadcaster).url = "subscriptions"
    ∧ (HelixSubscriptionApi.getSubscriptionsRequest broadcaster).scope
        = some "channel:read:subscriptions"
    ∧ (HelixSubscriptionApi.getSubscriptionsRequest broadcaster).query
        = [("broadcaster_id", .str (extractUserId broadcaster))] := by
  exact ⟨rfl, rfl, rfl, rfl, rfl, rfl⟩

/-- C7: `fetchAll` returns exactly the concatenation, in page-arrival order,
of the item lists of the pages it fetched; the number of Gateway calls is
one per page up to and including the first exhausted page (absent cursor or
empty items), and pages the Gateway would serve after the first exhausted
one are never requested (they cannot influence the result); in particular
the spec's concrete scenario returns [1,2,3,4,5] with an absent total. -/
theorem fetchAll_concatenates {α : Type} (ps : List (Page α)) :
    ((fetchAll ps).1
        = ((ps.take (callsUntilExhausted ps)).map Page.items).flatten
      ∧ (fetchAll ps).2.2 = callsUntilExhausted ps
      ∧ ∀ qs : List (Page α), (∃ p ∈ ps, pageExhausted p) →
          fetchAll (ps ++ qs) = fetchAll ps)
    ∧ fetchAll [⟨[1, 2], some "a", none⟩, ⟨[3], some "b", none⟩,
        ⟨[4, 5], some "c", none⟩, ⟨[], none, none⟩]
      = ([1, 2, 3, 4, 5], none, 4) := by
  refine ⟨?_, by rfl⟩
  induction ps with
  | nil =>
    refine ⟨by simp [fetchAll, callsUntilExhausted], by simp [fetchAll, callsUntilExhausted], ?_⟩
    rintro qs ⟨p, hp, -⟩
    exact absurd hp (List.not_mem_nil p)
  | cons p rest ih =>
    by_cases h : pageExhausted p
    · refine ⟨?_, ?_, ?_⟩
      · simp [fetchAll, callsUntilExhausted, h]
      · simp [fetchAll, callsUntilExhausted, h]
      · intro qs _
        simp [fetchAll, h]
    · refine ⟨?_, ?_, ?_⟩
      · simp [fetchAll, callsUntilExhausted, h, ih.1, ih.2.1]
      · simp [fetchAll, callsUntilExhausted, h, ih.2.1]
      · rintro qs ⟨q, hq, hqex⟩
        rcases List.mem_cons.mp hq with rfl | hq'
        · exact absurd hqex (by simp [h])
        · have := ih.2.2 qs ⟨q, hq', hqex⟩
          simp [fetchAll, h, this]

/-- Witness for C7: appending an extra page after the first exhausted page
does not change the traversal's result. -/
theorem fetchAll_concatenates_witness :
    fetchAll
        ([⟨[1, 2], some "a", none⟩, ⟨[], none, none⟩] ++ [⟨[9], some "z", none⟩])
      = fetchAll [⟨[1, 2], some "a", (none : Option Nat)⟩, ⟨[], none, none⟩] :=
  (fetchAll_concatenates
      [⟨[1, 2], some "a", none⟩, ⟨[], none, none⟩]).1.2.2
    [⟨[9], some "z", none⟩]
    ⟨⟨[], none, none⟩, by simp, by rfl⟩

end Twurple
